import Mathlib

/-!
Verification of the fence JWT validation core (`src/fence/jwt/validate.py`).

The embedding models the module `fence.jwt.validate`: `validate_purpose` and
`validate_jwt`.  The external `authutils.token.validate.validate_jwt` call
(the `authutils` dependency, not part of this repository) is modelled from
the spec.  Python dynamic behaviour relevant to the claims is modelled
explicitly: the `assert` on the scope argument, truthiness of strings,
`KeyError` on a missing dictionary key, and the `NameError` raised when an
`except` clause names the undefined identifier `Error`.

An `Outcome` pairs the returned value (or raised error) with a `Trace`
recording which collaborators were invoked and how, so that claims about
internal calls (key resolution, fallback attempt, blacklist query) are
statable.
-/

namespace Fence

/-- Claims decoded from a JWT.  A missing claim is `none` (for `aud`, the
empty list).  The `aud` claim is a string or set of strings, modelled as a
list; the `scope` claim likewise. -/
structure Claims where
  iss : Option String
  aud : List String
  exp : Option Int
  scope : Option (List String)
  pur : Option String
  jti : Option String
  deriving DecidableEq, Repr

/-- An encoded token, abstracted: `wellFormed` is whether `jwt.decode`
succeeds on it, `claims` its payload, and `validKeys` the public keys under
which its signature verifies. -/
structure Token where
  wellFormed : Bool
  claims : Claims
  validKeys : List String
  deriving DecidableEq, Repr

/-- The slice of fence configuration `validate_jwt` reads:
`config["BASE_URL"]` and
`config["OPENID_CONNECT"]["fence"]["api_base_url"]`. -/
structure Config where
  base_url : String
  oidc_fence_api_base_url : Option String
  deriving DecidableEq, Repr

/-- Errors raised by `authutils.token.validate.validate_jwt`
(all subclasses of `authutils.errors.JWTError`); `audience` is
`authutils.errors.JWTAudienceError`, singled out by the patch block. -/
inductive AuthErr where
  | signature (msg : String)
  | expired (msg : String)
  | issuer (msg : String)
  | audience (msg : String)
  | scopeErr (msg : String)
  | purposeErr (msg : String)
  deriving DecidableEq, Repr

/-- `str(e)` of an authutils error. -/
def AuthErr.msg : AuthErr → String
  | .signature m => m
  | .expired m => m
  | .issuer m => m
  | .audience m => m
  | .scopeErr m => m
  | .purposeErr m => m

/-- `isinstance(e, JWTAudienceError)`. -/
def AuthErr.isAudience : AuthErr → Bool
  | .audience _ => true
  | _ => false

/-- What `fence.jwt.validate.validate_jwt` raises.  `jwtError` and
`jwtPurposeError` are the typed `fence.jwt.errors` failures; the other three
model untyped Python exceptions escaping the function: a failed `assert`,
the `NameError` from the undefined name `Error` in the patch block, and the
`KeyError` from subscripting a missing claim. -/
inductive FenceErr where
  | jwtError (msg : String)
  | jwtPurposeError (msg : String)
  | assertionFailed (msg : String)
  | nameError (msg : String)
  | keyError (key : String)
  deriving DecidableEq, Repr

deriving instance DecidableEq for Except

/-- The Python value passed as the `scope` argument: a set, a list, `None`,
or a value of any other type (`other`). -/
inductive ScopeArg where
  | set (elems : List String)
  | list (elems : List String)
  | pyNone
  | other (descr : String)
  deriving DecidableEq, Repr

/-- Whether the scope argument satisfies
`isinstance(scope, set) or isinstance(scope, list) or scope is None`. -/
def ScopeArg.isValidType : ScopeArg → Bool
  | .other _ => false
  | _ => true

/-- The scope requirement as seen by the inner validator: a set or list
becomes the required collection, `None` skips scope checking. -/
def ScopeArg.toOption : ScopeArg → Option (List String)
  | .set elems => some elems
  | .list elems => some elems
  | .pyNone => none
  | .other _ => none

/-- What collaborators were invoked, and how, during one `validate_jwt`
call.  `keyResolution = some r` records that
`authutils.token.keys.get_public_key_for_token` was invoked with
`attempt_refresh = r`; `none` that it was not invoked (key supplied by the
caller, or an earlier exit).  `blacklistQueried = some j` records a call
`is_blacklisted(j)`. -/
structure Trace where
  issuersUsed : Option (List String)
  keyResolution : Option Bool
  keyUsed : Option String
  primaryCalled : Bool
  fallbackTried : Bool
  blacklistQueried : Option String
  deriving DecidableEq, Repr

/-- The empty trace: nothing invoked yet. -/
def Trace.init : Trace := ⟨none, none, none, false, false, none⟩

/-- Result of one call: the value returned or error raised, plus the trace. -/
structure Outcome where
  result : Except FenceErr Claims
  trace : Trace
  deriving DecidableEq, Repr

/-- The environment a call runs in: configuration, the current time (for the
expiry check), the blacklist store, the key fetch (argument: the token and
the `attempt_refresh` flag), and the token in the request header (for
`get_jwt_header`; `none` models `Unauthorized`). -/
structure Env where
  config : Config
  now : Int
  is_blacklisted : String → Bool
  get_public_key_for_token : Token → Bool → String
  jwt_header : Option Token

/-- Whether the `exp` claim is in the past at time `now`. -/
def expiredAt (c : Claims) (now : Int) : Bool :=
  match c.exp with
  | some t => t ≤ now
  | none => false

/-- Issuer membership: the `iss` claim is present and in the trusted set. -/
def issOk (c : Claims) (issuers : List String) : Bool :=
  match c.iss with
  | some i => decide (i ∈ issuers)
  | none => false

/-- Audience check: the expected audience is among the token audiences. -/
def audOk (c : Claims) (aud : String) : Bool :=
  decide (aud ∈ c.aud)

/-- Scope check: the claimed scope set must be a superset of the required
scope set; `none` skips the check; a missing scope claim counts as empty. -/
def scopeOk (c : Claims) (req : Option (List String)) : Bool :=
  match req with
  | none => true
  | some r => decide (∀ s ∈ r, s ∈ c.scope.getD [])

/-- Purpose re-assertion inside the inner validator: with a non-null
expected purpose the `pur` claim must equal it. -/
def purOk (c : Claims) (p : Option String) : Bool :=
  match p with
  | none => true
  | some q => decide (c.pur = some q)

/-- Modelled from the spec: `authutils.token.validate.validate_jwt` is the
`authutils` dependency, not a file of this repository.  Spec section 4.5
step 5: "Perform full verification: signature check, expiry check (`exp` in
the future at validation time), issuer membership check (`iss` in trusted
set), audience check (unless explicitly disabled) against the expected
audience ..., and scope check (unless explicitly skipped) - the claimed
scope set must be a superset of the required scope set"; the expected
purpose, when non-null, is re-asserted against the `pur` claim (spec 4.3 and
step 6).  On success the verified claims are returned. -/
def authValidate (t : Token) (aud : String) (scope : Option (List String))
    (purpose : Option String) (issuers : List String) (public_key : String)
    (now : Int) (verify_aud : Bool) : Except AuthErr Claims :=
  if public_key ∉ t.validKeys then
    .error (.signature "signature verification failed")
  else if expiredAt t.claims now then
    .error (.expired "token is expired")
  else if issOk t.claims issuers = false then
    .error (.issuer "token issuer is not trusted")
  else if verify_aud = true ∧ audOk t.claims aud = false then
    .error (.audience "invalid audience")
  else if scopeOk t.claims scope = false then
    .error (.scopeErr "token is missing a required scope")
  else if purOk t.claims purpose = false then
    .error (.purposeErr "token has incorrect purpose")
  else
    .ok t.claims

/-- `fence.jwt.validate.validate_purpose` (validate.py lines 13-36). -/
def validate_purpose (claims : Claims) (pur : String) : Except FenceErr Unit :=
  match claims.pur with
  | none => .error (.jwtPurposeError "claims missing `pur` claim")
  | some got =>
    if got ≠ pur then
      .error (.jwtPurposeError
        ("claims have incorrect purpose: expected " ++ pur ++ ", got " ++ got))
    else
      .ok ()

/-- Lines 84-88: a missing `encoded_token` argument falls back to
`get_jwt_header()`, whose `Unauthorized` becomes a `JWTError`. -/
def resolveToken (env : Env) (encoded_token : Option Token) : Except FenceErr Token :=
  match encoded_token with
  | some t => .ok t
  | none =>
    match env.jwt_header with
    | some t => .ok t
    | none => .error (.jwtError "No authorization token provided")

/-- Lines 98-105: the trusted issuer list is the caller-supplied one, else
`[config["BASE_URL"]]` plus the OIDC fence `api_base_url` when that
configuration value is truthy. -/
def effectiveIssuers (cfg : Config) (issuers : Option (List String)) : List String :=
  match issuers with
  | some l => l
  | none =>
    cfg.base_url ::
      (match cfg.oidc_fence_api_base_url with
       | some o => if o ≠ "" then [o] else []
       | none => [])

/-- Line 110: `attempt_refresh = attempt_refresh and (token_iss != iss)`. -/
def effectiveRefresh (cfg : Config) (t : Token) (attempt_refresh : Bool) : Bool :=
  attempt_refresh && decide (t.claims.iss ≠ some cfg.base_url)

/-- Line 111: `public_key or ...` - the key is fetched when the argument is
`None` or the empty string (Python falsiness). -/
def needsKeyFetch (public_key : Option String) : Bool :=
  match public_key with
  | some k => k == ""
  | none => true

/-- Lines 111-113: the public key actually used. -/
def resolvedKey (env : Env) (t : Token) (public_key : Option String)
    (ar : Bool) : String :=
  match public_key with
  | some k => if k = "" then env.get_public_key_for_token t ar else k
  | none => env.get_public_key_for_token t ar

/-- Lines 173-177: the message of the `JWTError` raised when no fallback
applies: the original error, plus a hint when the unverified scope claim is
falsy or contains the empty string. -/
def elseMsg (e : AuthErr) (unverified : Claims) : String :=
  let msg := "Invalid token : " ++ e.msg
  if unverified.scope = none ∨ unverified.scope = some []
      ∨ "" ∈ unverified.scope.getD [] then
    msg ++ "; was OIDC client configured with scopes?"
  else
    msg

/-- Line 178: `if purpose:` - `validate_purpose` runs only for a truthy
(non-null, non-empty) purpose argument. -/
def purposeGate (claims : Claims) (purpose : Option String) : Except FenceErr Unit :=
  match purpose with
  | some p => if p = "" then .ok () else validate_purpose claims p
  | none => .ok ()

/-- Lines 180-189: the missing-`pur` check and the blacklist check.
Subscripting `claims["jti"]` with the claim absent raises `KeyError`. -/
def purposeAndBlacklist (env : Env) (require_purpose : Bool) (claims : Claims)
    (tr : Trace) : Outcome :=
  if require_purpose = true ∧ claims.pur = none then
    match claims.jti with
    | none => ⟨.error (.keyError "jti"), tr⟩
    | some j =>
      ⟨.error (.jwtError ("token " ++ j ++ " missing purpose (`pur`) claim")), tr⟩
  else if require_purpose = true ∧ (claims.pur = some "refresh" ∨ claims.pur = some "api_key") then
    match claims.jti with
    | none => ⟨.error (.keyError "jti"), tr⟩
    | some j =>
      if env.is_blacklisted j then
        ⟨.error (.jwtError "token is blacklisted"), { tr with blacklistQueried := some j }⟩
      else
        ⟨.ok claims, { tr with blacklistQueried := some j }⟩
  else
    ⟨.ok claims, tr⟩

/-- Lines 178-189 together: the checks run on claims returned by the inner
validator, primary or fallback. -/
def postChecks (env : Env) (require_purpose : Bool) (purpose : Option String)
    (claims : Claims) (tr : Trace) : Outcome :=
  match purposeGate claims purpose with
  | .error err => ⟨.error err, tr⟩
  | .ok _ => purposeAndBlacklist env require_purpose claims tr

/-- Lines 140-170: one fallback verification attempt with the legacy
audience (`"openid"` or `"fence"`), scope checking skipped and the purpose
re-asserted.  When this attempt fails, the handler `except Error as e:`
(lines 152 and 169) is evaluated; `Error` is an undefined name, so Python
raises `NameError` while handling the fallback failure - the intended
`JWTError("Invalid refresh token: ...")` / `JWTError("Invalid API key:
...")` is never constructed. -/
def fallbackVerify (env : Env) (t : Token) (fbAud fbPur : String)
    (require_purpose : Bool) (purpose : Option String) (issuersL : List String)
    (key : String) (verify_aud : Bool) (tr : Trace) : Outcome :=
  let tr2 := { tr with fallbackTried := true }
  match authValidate t fbAud none (some fbPur) issuersL key env.now verify_aud with
  | .ok claims => postChecks env require_purpose purpose claims tr2
  | .error e2 =>
    ⟨.error (.nameError ("name Error is not defined, raised while handling " ++ e2.msg)), tr2⟩

/-- Lines 115-177: the primary verification call and the patch block
choosing between fallback and the augmented `JWTError`.  The unverified
claims re-decoded at line 136 are the token claims. -/
def primaryVerify (env : Env) (t : Token) (aud : String)
    (scope : Option (List String)) (require_purpose : Bool)
    (purpose : Option String) (issuersL : List String) (key : String)
    (verify_aud : Bool) (tr : Trace) : Outcome :=
  match authValidate t aud scope purpose issuersL key env.now verify_aud with
  | .ok claims => postChecks env require_purpose purpose claims tr
  | .error e =>
    if t.claims.pur = some "refresh" ∧ e.isAudience = true then
      fallbackVerify env t "openid" "refresh" require_purpose purpose issuersL key verify_aud tr
    else if t.claims.pur = some "api_key" ∧ e.isAudience = true then
      fallbackVerify env t "fence" "api_key" require_purpose purpose issuersL key verify_aud tr
    else
      ⟨.error (.jwtError (elseMsg e t.claims)), tr⟩

/-- The trace at the moment the primary verification call is made: issuers
chosen, key resolved (with the damped refresh flag recorded when the key was
fetched rather than supplied). -/
def primaryTrace (env : Env) (t : Token) (public_key : Option String)
    (attempt_refresh : Bool) (issuers : Option (List String)) : Trace :=
  ⟨some (effectiveIssuers env.config issuers),
    if needsKeyFetch public_key then
      some (effectiveRefresh env.config t attempt_refresh)
    else none,
    some (resolvedKey env t public_key (effectiveRefresh env.config t attempt_refresh)),
    true, false, none⟩

/-- Lines 94-177 after the scope assertion: audience defaulting, issuer
list, unverified decode, refresh damping, key resolution, then
verification. -/
def afterAssert (env : Env) (t : Token) (aud : Option String)
    (scope : Option (List String)) (require_purpose : Bool)
    (purpose : Option String) (public_key : Option String)
    (attempt_refresh : Bool) (issuers : Option (List String))
    (verify_aud : Bool) : Outcome :=
  if t.wellFormed = false then
    ⟨.error (.jwtError "InvalidTokenError"),
      ⟨some (effectiveIssuers env.config issuers), none, none, false, false, none⟩⟩
  else
    primaryVerify env t (aud.getD env.config.base_url) scope require_purpose
      purpose (effectiveIssuers env.config issuers)
      (resolvedKey env t public_key (effectiveRefresh env.config t attempt_refresh))
      verify_aud (primaryTrace env t public_key attempt_refresh issuers)

/-- `fence.jwt.validate.validate_jwt` (validate.py lines 39-189).  The
Python signature defaults are `aud=None`, `scope={"openid"}`,
`require_purpose=True`, `purpose=None`, `public_key=None`,
`attempt_refresh=False`, `issuers=None`; `verify_aud` models the
`options={"verify_aud": ...}` keyword forwarded to authutils (default
true); `pkey_cache` is forwarded opaquely inside
`Env.get_public_key_for_token`. -/
def validate_jwt (env : Env) (encoded_token : Option Token)
    (aud : Option String) (scope : ScopeArg) (require_purpose : Bool)
    (purpose : Option String) (public_key : Option String)
    (attempt_refresh : Bool) (issuers : Option (List String))
    (verify_aud : Bool) : Outcome :=
  match resolveToken env encoded_token with
  | .error e => ⟨.error e, Trace.init⟩
  | .ok t =>
    if scope.isValidType = false then
      ⟨.error (.assertionFailed "scope argument must be set or list or None"), Trace.init⟩
    else
      afterAssert env t aud scope.toOption require_purpose purpose public_key
        attempt_refresh issuers verify_aud

/-! ## Inversion lemmas -/

/-- Success of the inner validator means every applicable check passed and
the verified claims are exactly the token claims. -/
theorem authValidate_ok {t : Token} {aud : String} {scope : Option (List String)}
    {purpose : Option String} {issuers : List String} {k : String} {now : Int}
    {va : Bool} {c : Claims}
    (h : authValidate t aud scope purpose issuers k now va = .ok c) :
    c = t.claims ∧ k ∈ t.validKeys ∧ expiredAt t.claims now = false
      ∧ issOk t.claims issuers = true
      ∧ (va = true → audOk t.claims aud = true)
      ∧ scopeOk t.claims scope = true ∧ purOk t.claims purpose = true := by
  unfold authValidate at h
  repeat' split at h
  all_goals simp_all

/-- A passed purpose gate means a truthy expected purpose matched `pur`. -/
theorem purposeGate_ok {claims : Claims} {purpose : Option String}
    (h : purposeGate claims purpose = .ok ()) :
    ∀ p, purpose = some p → p ≠ "" → claims.pur = some p := by
  intro p hp hne
  subst hp
  unfold purposeGate validate_purpose at h
  simp only [if_neg hne] at h
  cases hc : claims.pur with
  | none => simp [hc] at h
  | some got =>
    simp only [hc] at h
    split at h
    · exact absurd h (by simp)
    · simp_all

/-- Success of the missing-`pur` and blacklist block (lines 180-189). -/
theorem purposeAndBlacklist_ok {env : Env} {rp : Bool} {claims : Claims}
    {tr : Trace} {c : Claims}
    (h : (purposeAndBlacklist env rp claims tr).result = .ok c) :
    c = claims ∧ (rp = true → claims.pur ≠ none)
      ∧ (rp = true → (claims.pur = some "refresh" ∨ claims.pur = some "api_key") →
          ∃ j, claims.jti = some j ∧ env.is_blacklisted j = false) := by
  unfold purposeAndBlacklist at h
  repeat' split at h
  all_goals simp_all

/-- Success of everything after the inner validator (lines 178-189). -/
theorem postChecks_ok {env : Env} {rp : Bool} {purpose : Option String}
    {claims : Claims} {tr : Trace} {c : Claims}
    (h : (postChecks env rp purpose claims tr).result = .ok c) :
    c = claims ∧ (∀ p, purpose = some p → p ≠ "" → claims.pur = some p)
      ∧ (rp = true → claims.pur ≠ none)
      ∧ (rp = true → (claims.pur = some "refresh" ∨ claims.pur = some "api_key") →
          ∃ j, claims.jti = some j ∧ env.is_blacklisted j = false) := by
  unfold postChecks at h
  split at h
  · exact absurd h (by simp)
  · rename_i hg
    have := purposeAndBlacklist_ok h
    exact ⟨this.1, purposeGate_ok hg, this.2.1, this.2.2⟩

/-! ## Trace propagation lemmas -/

/-- The blacklist block leaves the key-resolution record unchanged. -/
theorem purposeAndBlacklist_keyRes (env : Env) (rp : Bool) (claims : Claims)
    (tr : Trace) :
    (purposeAndBlacklist env rp claims tr).trace.keyResolution = tr.keyResolution := by
  unfold purposeAndBlacklist
  repeat' split
  all_goals simp

/-- The blacklist block leaves the issuer record unchanged. -/
theorem purposeAndBlacklist_issuers (env : Env) (rp : Bool) (claims : Claims)
    (tr : Trace) :
    (purposeAndBlacklist env rp claims tr).trace.issuersUsed = tr.issuersUsed := by
  unfold purposeAndBlacklist
  repeat' split
  all_goals simp

/-- The blacklist block leaves the primary-call record unchanged. -/
theorem purposeAndBlacklist_primaryCalled (env : Env) (rp : Bool)
    (claims : Claims) (tr : Trace) :
    (purposeAndBlacklist env rp claims tr).trace.primaryCalled = tr.primaryCalled := by
  unfold purposeAndBlacklist
  repeat' split
  all_goals simp

/-- A blacklist query happened in lines 183-189 only for a required purpose
`refresh`/`api_key`, on the token identifier. -/
theorem purposeAndBlacklist_blq {env : Env} {rp : Bool} {claims : Claims}
    {tr : Trace} {j : String} (h0 : tr.blacklistQueried = none)
    (h : (purposeAndBlacklist env rp claims tr).trace.blacklistQueried = some j) :
    rp = true ∧ (claims.pur = some "refresh" ∨ claims.pur = some "api_key")
      ∧ claims.jti = some j := by
  unfold purposeAndBlacklist at h
  repeat' split at h
  all_goals simp_all

/-- `postChecks` leaves the key-resolution record unchanged. -/
theorem postChecks_keyRes (env : Env) (rp : Bool) (purpose : Option String)
    (claims : Claims) (tr : Trace) :
    (postChecks env rp purpose claims tr).trace.keyResolution = tr.keyResolution := by
  unfold postChecks
  split
  · simp
  · exact purposeAndBlacklist_keyRes env rp claims tr

/-- `postChecks` leaves the issuer record unchanged. -/
theorem postChecks_issuers (env : Env) (rp : Bool) (purpose : Option String)
    (claims : Claims) (tr : Trace) :
    (postChecks env rp purpose claims tr).trace.issuersUsed = tr.issuersUsed := by
  unfold postChecks
  split
  · simp
  · exact purposeAndBlacklist_issuers env rp claims tr

/-- `postChecks` leaves the primary-call record unchanged. -/
theorem postChecks_primaryCalled (env : Env) (rp : Bool) (purpose : Option String)
    (claims : Claims) (tr : Trace) :
    (postChecks env rp purpose claims tr).trace.primaryCalled = tr.primaryCalled := by
  unfold postChecks
  split
  · simp
  · exact purposeAndBlacklist_primaryCalled env rp claims tr

/-- A blacklist query during `postChecks` pins the purpose and identifier. -/
theorem postChecks_blq {env : Env} {rp : Bool} {purpose : Option String}
    {claims : Claims} {tr : Trace} {j : String} (h0 : tr.blacklistQueried = none)
    (h : (postChecks env rp purpose claims tr).trace.blacklistQueried = some j) :
    rp = true ∧ (claims.pur = some "refresh" ∨ claims.pur = some "api_key")
      ∧ claims.jti = some j := by
  unfold postChecks at h
  split at h
  · simp_all
  · exact purposeAndBlacklist_blq h0 h

/-- The fallback attempt leaves the key-resolution record unchanged. -/
theorem fallbackVerify_keyRes (env : Env) (t : Token) (fbAud fbPur : String)
    (rp : Bool) (purpose : Option String) (issuersL : List String)
    (key : String) (va : Bool) (tr : Trace) :
    (fallbackVerify env t fbAud fbPur rp purpose issuersL key va tr).trace.keyResolution
      = tr.keyResolution := by
  unfold fallbackVerify
  split
  · rw [postChecks_keyRes]
  · simp

/-- The fallback attempt leaves the issuer record unchanged. -/
theorem fallbackVerify_issuers (env : Env) (t : Token) (fbAud fbPur : String)
    (rp : Bool) (purpose : Option String) (issuersL : List String)
    (key : String) (va : Bool) (tr : Trace) :
    (fallbackVerify env t fbAud fbPur rp purpose issuersL key va tr).trace.issuersUsed
      = tr.issuersUsed := by
  unfold fallbackVerify
  split
  · rw [postChecks_issuers]
  · simp

/-- The fallback attempt leaves the primary-call record unchanged. -/
theorem fallbackVerify_primaryCalled (env : Env) (t : Token) (fbAud fbPur : String)
    (rp : Bool) (purpose : Option String) (issuersL : List String)
    (key : String) (va : Bool) (tr : Trace) :
    (fallbackVerify env t fbAud fbPur rp purpose issuersL key va tr).trace.primaryCalled
      = tr.primaryCalled := by
  unfold fallbackVerify
  split
  · rw [postChecks_primaryCalled]
  · simp

/-- A blacklist query after a fallback pins the purpose and identifier. -/
theorem fallbackVerify_blq {env : Env} {t : Token} {fbAud fbPur : String}
    {rp : Bool} {purpose : Option String} {issuersL : List String}
    {key : String} {va : Bool} {tr : Trace} {j : String}
    (h0 : tr.blacklistQueried = none)
    (h : (fallbackVerify env t fbAud fbPur rp purpose issuersL key va tr).trace.blacklistQueried
        = some j) :
    rp = true ∧ (t.claims.pur = some "refresh" ∨ t.claims.pur = some "api_key")
      ∧ t.claims.jti = some j := by
  unfold fallbackVerify at h
  split at h
  · rename_i claims hm
    have hc := (authValidate_ok hm).1
    subst hc
    exact postChecks_blq (by simp [h0]) h
  · simp_all

/-- The whole verification step leaves the key-resolution record unchanged. -/
theorem primaryVerify_keyRes (env : Env) (t : Token) (aud : String)
    (scope : Option (List String)) (rp : Bool) (purpose : Option String)
    (issuersL : List String) (key : String) (va : Bool) (tr : Trace) :
    (primaryVerify env t aud scope rp purpose issuersL key va tr).trace.keyResolution
      = tr.keyResolution := by
  unfold primaryVerify
  repeat' split
  · rw [postChecks_keyRes]
  · rw [fallbackVerify_keyRes]
  · rw [fallbackVerify_keyRes]
  · simp

/-- The whole verification step leaves the issuer record unchanged. -/
theorem primaryVerify_issuers (env : Env) (t : Token) (aud : String)
    (scope : Option (List String)) (rp : Bool) (purpose : Option String)
    (issuersL : List String) (key : String) (va : Bool) (tr : Trace) :
    (primaryVerify env t aud scope rp purpose issuersL key va tr).trace.issuersUsed
      = tr.issuersUsed := by
  unfold primaryVerify
  repeat' split
  · rw [postChecks_issuers]
  · rw [fallbackVerify_issuers]
  · rw [fallbackVerify_issuers]
  · simp

/-- The whole verification step leaves the primary-call record unchanged. -/
theorem primaryVerify_primaryCalled (env : Env) (t : Token) (aud : String)
    (scope : Option (List String)) (rp : Bool) (purpose : Option String)
    (issuersL : List String) (key : String) (va : Bool) (tr : Trace) :
    (primaryVerify env t aud scope rp purpose issuersL key va tr).trace.primaryCalled
      = tr.primaryCalled := by
  unfold primaryVerify
  repeat' split
  · rw [postChecks_primaryCalled]
  · rw [fallbackVerify_primaryCalled]
  · rw [fallbackVerify_primaryCalled]
  · simp

/-- A blacklist query during verification pins the purpose and identifier of
the token claims. -/
theorem primaryVerify_blq {env : Env} {t : Token} {aud : String}
    {scope : Option (List String)} {rp : Bool} {purpose : Option String}
    {issuersL : List String} {key : String} {va : Bool} {tr : Trace} {j : String}
    (h0 : tr.blacklistQueried = none)
    (h : (primaryVerify env t aud scope rp purpose issuersL key va tr).trace.blacklistQueried
        = some j) :
    rp = true ∧ (t.claims.pur = some "refresh" ∨ t.claims.pur = some "api_key")
      ∧ t.claims.jti = some j := by
  unfold primaryVerify at h
  split at h
  · rename_i claims hm
    have hc := (authValidate_ok hm).1
    subst hc
    exact postChecks_blq h0 h
  · split at h
    · exact fallbackVerify_blq h0 h
    · split at h
      · exact fallbackVerify_blq h0 h
      · simp_all

/-- Success of a fallback attempt means the checks it performs (signature,
expiry, issuer, the re-asserted purpose) and the post checks all passed. -/
theorem fallbackVerify_ok {env : Env} {t : Token} {fbAud fbPur : String}
    {rp : Bool} {purpose : Option String} {issuersL : List String}
    {key : String} {va : Bool} {tr : Trace} {c : Claims}
    (h : (fallbackVerify env t fbAud fbPur rp purpose issuersL key va tr).result = .ok c) :
    c = t.claims ∧ key ∈ t.validKeys ∧ expiredAt t.claims env.now = false
      ∧ issOk t.claims issuersL = true
      ∧ (∀ q, purpose = some q → q ≠ "" → t.claims.pur = some q)
      ∧ (rp = true → t.claims.pur ≠ none)
      ∧ (rp = true → (t.claims.pur = some "refresh" ∨ t.claims.pur = some "api_key") →
          ∃ j, t.claims.jti = some j ∧ env.is_blacklisted j = false) := by
  unfold fallbackVerify at h
  split at h
  · rename_i claims hm
    obtain ⟨hc, hkey, hexp, hiss, _, _, _⟩ := authValidate_ok hm
    subst hc
    obtain ⟨hc2, hpg, hpn, hbl⟩ := postChecks_ok h
    subst hc2
    exact ⟨rfl, hkey, hexp, hiss, hpg, hpn, hbl⟩
  · simp at h

/-- Success of the whole verification step (primary or fallback) means the
shared checks and the post checks all passed. -/
theorem primaryVerify_ok {env : Env} {t : Token} {aud : String}
    {scope : Option (List String)} {rp : Bool} {purpose : Option String}
    {issuersL : List String} {key : String} {va : Bool} {tr : Trace} {c : Claims}
    (h : (primaryVerify env t aud scope rp purpose issuersL key va tr).result = .ok c) :
    c = t.claims ∧ key ∈ t.validKeys ∧ expiredAt t.claims env.now = false
      ∧ issOk t.claims issuersL = true
      ∧ (∀ q, purpose = some q → q ≠ "" → t.claims.pur = some q)
      ∧ (rp = true → t.claims.pur ≠ none)
      ∧ (rp = true → (t.claims.pur = some "refresh" ∨ t.claims.pur = some "api_key") →
          ∃ j, t.claims.jti = some j ∧ env.is_blacklisted j = false) := by
  unfold primaryVerify at h
  split at h
  · rename_i claims hm
    obtain ⟨hc, hkey, hexp, hiss, _, _, _⟩ := authValidate_ok hm
    subst hc
    obtain ⟨hc2, hpg, hpn, hbl⟩ := postChecks_ok h
    subst hc2
    exact ⟨rfl, hkey, hexp, hiss, hpg, hpn, hbl⟩
  · split at h
    · exact fallbackVerify_ok h
    · split at h
      · exact fallbackVerify_ok h
      · simp at h

/-- When checks up to the audience check pass, a primary failure that is an
audience error can only come from the audience check itself. -/
theorem authValidate_audience_error {t : Token} {aud : String}
    {scope : Option (List String)} {purpose : Option String}
    {issuers : List String} {k : String} {now : Int} {va : Bool} {e : AuthErr}
    (h : authValidate t aud scope purpose issuers k now va = .error e)
    (hA : e.isAudience = true) :
    audOk t.claims aud = false ∧ va = true := by
  unfold authValidate at h
  repeat' split at h
  all_goals simp at h
  all_goals subst h
  all_goals simp_all [AuthErr.isAudience]

/-- A purpose argument compatible with the claims passes the purpose gate. -/
theorem purposeGate_ok_of {claims : Claims} {purpose : Option String}
    (h : ∀ q, purpose = some q → q ≠ "" → claims.pur = some q) :
    purposeGate claims purpose = .ok () := by
  cases hp : purpose with
  | none => rfl
  | some p =>
    by_cases he : p = ""
    · subst he
      simp [purposeGate]
    · have hc := h p hp he
      simp [purposeGate, he, validate_purpose, hc]

/-- For a required `refresh`/`api_key` purpose, the blacklist decides the
outcome of lines 183-189. -/
theorem purposeAndBlacklist_decides {env : Env} {claims : Claims} {tr : Trace}
    {j : String}
    (hpur : claims.pur = some "refresh" ∨ claims.pur = some "api_key")
    (hj : claims.jti = some j) :
    (env.is_blacklisted j = true →
      (purposeAndBlacklist env true claims tr).result
        = .error (.jwtError "token is blacklisted"))
  ∧ (env.is_blacklisted j = false →
      (purposeAndBlacklist env true claims tr).result = .ok claims) := by
  unfold purposeAndBlacklist
  have hne : ¬(true = true ∧ claims.pur = none) := by
    rcases hpur with h | h <;> simp [h]
  rw [if_neg hne, if_pos ⟨rfl, hpur⟩, hj]
  constructor <;> intro hb <;> simp [hb]

/-- Once the token is in hand, the scope assertion passed and the token
decodes, `validate_jwt` is the verification step on the derived trust
parameters. -/
theorem validate_jwt_eq_primary {env : Env} {tok : Option Token} {t : Token}
    (aud : Option String) (scope : ScopeArg) (rp : Bool) (purpose : Option String)
    (pk : Option String) (ar : Bool) (iss : Option (List String)) (va : Bool)
    (ht : resolveToken env tok = .ok t) (hs : scope.isValidType = true)
    (hw : t.wellFormed = true) :
    validate_jwt env tok aud scope rp purpose pk ar iss va
      = primaryVerify env t (aud.getD env.config.base_url) scope.toOption rp purpose
          (effectiveIssuers env.config iss)
          (resolvedKey env t pk (effectiveRefresh env.config t ar)) va
          (primaryTrace env t pk ar iss) := by
  unfold validate_jwt afterAssert
  rw [ht]
  simp [hs, hw]

/-- The key-resolution record of a full call: either the key fetch was not
invoked, or it got the damped refresh flag for the resolved token. -/
theorem validate_jwt_keyRes (env : Env) (tok : Option Token) (aud : Option String)
    (scope : ScopeArg) (rp : Bool) (purpose : Option String) (pk : Option String)
    (ar : Bool) (iss : Option (List String)) (va : Bool) :
    (validate_jwt env tok aud scope rp purpose pk ar iss va).trace.keyResolution = none
  ∨ ∃ t, resolveToken env tok = .ok t
      ∧ (validate_jwt env tok aud scope rp purpose pk ar iss va).trace.keyResolution
          = some (effectiveRefresh env.config t ar) := by
  cases hr : resolveToken env tok with
  | error e =>
    left
    unfold validate_jwt
    rw [hr]
    simp [Trace.init]
  | ok t =>
    by_cases hs : scope.isValidType = true
    · by_cases hw : t.wellFormed = true
      · rw [validate_jwt_eq_primary aud scope rp purpose pk ar iss va hr hs hw,
          primaryVerify_keyRes]
        by_cases hf : needsKeyFetch pk = true
        · right
          exact ⟨t, rfl, by simp [primaryTrace, hf]⟩
        · left
          simp only [Bool.not_eq_true] at hf
          simp [primaryTrace, hf]
      · left
        unfold validate_jwt afterAssert
        rw [hr]
        simp only [Bool.not_eq_true] at hw
        simp [hs, hw]
    · left
      unfold validate_jwt
      rw [hr]
      simp only [Bool.not_eq_true] at hs
      simp [hs, Trace.init]

/-! ## Concrete fixtures used by witnesses and counterexamples -/

/-- A configuration with both the base url and a secondary OIDC issuer. -/
def cfg0 : Config := ⟨"https://fence.test", some "https://other.fence"⟩

/-- An environment with an empty blacklist and a single cached key. -/
def env0 : Env := ⟨cfg0, 1000, fun _ => false, fun _ _ => "k1", none⟩

/-- An environment whose blacklist contains exactly `jtiR`. -/
def envB : Env := ⟨cfg0, 1000, fun j => j == "jtiR", fun _ _ => "k1", none⟩

/-- Claims of a fully valid access token. -/
def claims0 : Claims :=
  ⟨some "https://fence.test", ["https://fence.test"], some 2000, some ["openid"],
    some "access", some "jti0"⟩

/-- A fully valid access token. -/
def tok0 : Token := ⟨true, claims0, ["k1"]⟩

/-- Claims of a legacy refresh token: audience `openid`, empty scope claim. -/
def claimsR : Claims :=
  ⟨some "https://fence.test", ["openid"], some 2000, some [], some "refresh",
    some "jtiR"⟩

/-- A legacy refresh token (valid except for the modern audience). -/
def tokR : Token := ⟨true, claimsR, ["k1"]⟩

/-- Claims of a refresh token whose audience matches neither the primary nor
the legacy expectation. -/
def claims3 : Claims :=
  ⟨some "https://fence.test", ["nothing"], some 2000, some ["openid"],
    some "refresh", some "jti3"⟩

/-- A refresh token on which the fallback attempt also fails. -/
def tok3 : Token := ⟨true, claims3, ["k1"]⟩

/-- Claims of an otherwise valid token with no `pur` and no `jti` claim. -/
def claimsN : Claims :=
  ⟨some "https://fence.test", ["https://fence.test"], some 2000, some ["openid"],
    none, none⟩

/-- An otherwise valid token with no `pur` and no `jti` claim. -/
def tokN : Token := ⟨true, claimsN, ["k1"]⟩

/-- Claims of an otherwise valid token with no `pur` claim but with a `jti`. -/
def claimsN2 : Claims :=
  ⟨some "https://fence.test", ["https://fence.test"], some 2000, some ["openid"],
    none, some "jn"⟩

/-- An otherwise valid token with no `pur` claim but with a `jti`. -/
def tokN2 : Token := ⟨true, claimsN2, ["k1"]⟩

/-- Claims of an access token whose scope claim lacks `openid`. -/
def claimsX : Claims :=
  ⟨some "https://fence.test", ["https://fence.test"], some 2000, some ["data"],
    some "access", some "jx"⟩

/-- An access token whose scope claim lacks `openid`. -/
def tokX : Token := ⟨true, claimsX, ["k1"]⟩

/-- Claims of a modern refresh token (audience is the base url). -/
def claimsRM : Claims :=
  ⟨some "https://fence.test", ["https://fence.test"], some 2000, some ["openid"],
    some "refresh", some "jtiR"⟩

/-- A modern refresh token that passes primary verification. -/
def tokRM : Token := ⟨true, claimsRM, ["k1"]⟩

/-! ## The claims -/

/-- C1: for every call to `validate_jwt` that returns a `Claims` value, the
returned claims passed signature verification under the key the call used,
the expiry check, the issuer membership check, the purpose check when a
(truthy) purpose was required, and the blacklist check when the purpose is
`refresh`/`api_key` and purpose enforcement was required; no path that
skipped an applicable check returns a claims mapping. -/
theorem c1_claims_only_after_checks
    (env : Env) (tok : Option Token) (aud : Option String) (scope : ScopeArg)
    (rp : Bool) (purpose : Option String) (pk : Option String) (ar : Bool)
    (iss : Option (List String)) (va : Bool) (c : Claims)
    (h : (validate_jwt env tok aud scope rp purpose pk ar iss va).result = .ok c) :
    ∃ t, resolveToken env tok = .ok t ∧ c = t.claims
      ∧ resolvedKey env t pk (effectiveRefresh env.config t ar) ∈ t.validKeys
      ∧ expiredAt t.claims env.now = false
      ∧ issOk t.claims (effectiveIssuers env.config iss) = true
      ∧ (∀ q, purpose = some q → q ≠ "" → c.pur = some q)
      ∧ (rp = true → c.pur ≠ none)
      ∧ (rp = true → (c.pur = some "refresh" ∨ c.pur = some "api_key") →
          ∃ j, c.jti = some j ∧ env.is_blacklisted j = false) := by
  cases hr : resolveToken env tok with
  | error e =>
    unfold validate_jwt at h
    rw [hr] at h
    simp at h
  | ok t =>
    by_cases hs : scope.isValidType = true
    · by_cases hw : t.wellFormed = true
      · rw [validate_jwt_eq_primary aud scope rp purpose pk ar iss va hr hs hw] at h
        obtain ⟨hc, hkey, hexp, hiss, hpg, hpn, hbl⟩ := primaryVerify_ok h
        subst hc
        exact ⟨t, rfl, rfl, hkey, hexp, hiss, hpg, hpn, hbl⟩
      · unfold validate_jwt afterAssert at h
        rw [hr] at h
        simp only [Bool.not_eq_true] at hw
        simp [hs, hw] at h
    · unfold validate_jwt at h
      rw [hr] at h
      simp only [Bool.not_eq_true] at hs
      simp [hs] at h

/-- Witness for C1 at a fully valid access token. -/
theorem c1_claims_only_after_checks_witness :
    ∃ t, resolveToken env0 (some tok0) = .ok t ∧ claims0 = t.claims
      ∧ resolvedKey env0 t none (effectiveRefresh env0.config t false) ∈ t.validKeys
      ∧ expiredAt t.claims env0.now = false
      ∧ issOk t.claims (effectiveIssuers env0.config none) = true
      ∧ (∀ q, (none : Option String) = some q → q ≠ "" → claims0.pur = some q)
      ∧ (true = true → claims0.pur ≠ none)
      ∧ (true = true → (claims0.pur = some "refresh" ∨ claims0.pur = some "api_key") →
          ∃ j, claims0.jti = some j ∧ env0.is_blacklisted j = false) :=
  c1_claims_only_after_checks env0 (some tok0) none (.set ["openid"]) true none
    none false none true claims0 rfl

/-- C2: when the primary verification fails with an audience-mismatch error
and the unverified `pur` claim is `refresh` (resp. `api_key`), the call
becomes exactly one fallback verification with expected audience the literal
`"openid"` (resp. `"fence"`), scope checking skipped (`none`) and purpose
re-asserted as `"refresh"` (resp. `"api_key"`); for any other purpose or any
non-audience failure no fallback is attempted and the call fails with the
audience error wrapped in a `JWTError`. -/
theorem c2_audience_fallback_dispatch
    (env : Env) (t : Token) (aud : Option String) (scope : ScopeArg)
    (rp : Bool) (purpose : Option String) (pk : Option String) (ar : Bool)
    (iss : Option (List String)) (va : Bool) (e : AuthErr)
    (hs : scope.isValidType = true) (hw : t.wellFormed = true)
    (he : authValidate t (aud.getD env.config.base_url) scope.toOption purpose
        (effectiveIssuers env.config iss)
        (resolvedKey env t pk (effectiveRefresh env.config t ar)) env.now va
      = .error e) :
    (t.claims.pur = some "refresh" → e.isAudience = true →
      validate_jwt env (some t) aud scope rp purpose pk ar iss va
        = fallbackVerify env t "openid" "refresh" rp purpose
            (effectiveIssuers env.config iss)
            (resolvedKey env t pk (effectiveRefresh env.config t ar)) va
            (primaryTrace env t pk ar iss))
  ∧ (t.claims.pur = some "api_key" → e.isAudience = true →
      validate_jwt env (some t) aud scope rp purpose pk ar iss va
        = fallbackVerify env t "fence" "api_key" rp purpose
            (effectiveIssuers env.config iss)
            (resolvedKey env t pk (effectiveRefresh env.config t ar)) va
            (primaryTrace env t pk ar iss))
  ∧ (¬((t.claims.pur = some "refresh" ∨ t.claims.pur = some "api_key")
        ∧ e.isAudience = true) →
      validate_jwt env (some t) aud scope rp purpose pk ar iss va
        = ⟨.error (.jwtError (elseMsg e t.claims)), primaryTrace env t pk ar iss⟩
      ∧ (primaryTrace env t pk ar iss).fallbackTried = false) := by
  rw [validate_jwt_eq_primary aud scope rp purpose pk ar iss va (by rfl) hs hw]
  simp only [primaryVerify, he]
  refine ⟨?_, ?_, ?_⟩
  · intro hp hA
    rw [if_pos ⟨hp, hA⟩]
  · intro hp hA
    rw [if_neg (by simp [hp]), if_pos ⟨hp, hA⟩]
  · intro hn
    rw [if_neg (fun hc => hn ⟨Or.inl hc.1, hc.2⟩),
      if_neg (fun hc => hn ⟨Or.inr hc.1, hc.2⟩)]
    exact ⟨rfl, rfl⟩

/-- Witness for C2 at a legacy refresh token whose audience is `openid`: the
primary call fails on the audience and the call becomes the legacy fallback
verification. -/
theorem c2_audience_fallback_dispatch_witness :
    validate_jwt env0 (some tokR) none (.set ["openid"]) true none none false
        none true
      = fallbackVerify env0 tokR "openid" "refresh" true none
          (effectiveIssuers env0.config none)
          (resolvedKey env0 tokR none (effectiveRefresh env0.config tokR false))
          true (primaryTrace env0 tokR none false none) :=
  (c2_audience_fallback_dispatch env0 tokR none (.set ["openid"]) true none
    none false none true (.audience "invalid audience") rfl rfl rfl).1 rfl rfl

/-- C3 counterexample: on a refresh token whose fallback verification also
fails, the call raises an untyped `NameError` (the handler names the
undefined identifier `Error`), not a typed `JWTError` carrying the original
audience error and a scope-configuration hint. -/
theorem c3_fallback_failure_cex :
    (validate_jwt env0 (some tok3) none (.set ["openid"]) true none none false
        none true).result
      = .error (.nameError
          "name Error is not defined, raised while handling invalid audience")
    ∧ ∀ m, (validate_jwt env0 (some tok3) none (.set ["openid"]) true none none
        false none true).result ≠ .error (.jwtError m) := by
  constructor
  · rfl
  · intro m h
    rw [show (validate_jwt env0 (some tok3) none (.set ["openid"]) true none
        none false none true).result
      = .error (.nameError
          "name Error is not defined, raised while handling invalid audience")
      from rfl] at h
    simp at h

/-- C3 amended: when the fallback verification attempt (after a primary
audience-mismatch failure with unverified purpose `refresh` or `api_key`)
also fails, `validate_jwt` raises an untyped `NameError` caused by the
undefined name `Error` in the handler, chaining the fallback failure; no
typed validation failure, no propagation of the original audience error and
no scope-configuration hint occur on this path. -/
theorem c3_fallback_failure_nameError
    (env : Env) (t : Token) (aud : Option String) (scope : ScopeArg)
    (rp : Bool) (purpose : Option String) (pk : Option String) (ar : Bool)
    (iss : Option (List String)) (va : Bool) (e : AuthErr)
    (hs : scope.isValidType = true) (hw : t.wellFormed = true)
    (he : authValidate t (aud.getD env.config.base_url) scope.toOption purpose
        (effectiveIssuers env.config iss)
        (resolvedKey env t pk (effectiveRefresh env.config t ar)) env.now va
      = .error e)
    (hA : e.isAudience = true) :
    (∀ e2, t.claims.pur = some "refresh" →
      authValidate t "openid" none (some "refresh")
          (effectiveIssuers env.config iss)
          (resolvedKey env t pk (effectiveRefresh env.config t ar)) env.now va
        = .error e2 →
      (validate_jwt env (some t) aud scope rp purpose pk ar iss va).result
        = .error (.nameError
            ("name Error is not defined, raised while handling " ++ e2.msg)))
  ∧ (∀ e2, t.claims.pur = some "api_key" →
      authValidate t "fence" none (some "api_key")
          (effectiveIssuers env.config iss)
          (resolvedKey env t pk (effectiveRefresh env.config t ar)) env.now va
        = .error e2 →
      (validate_jwt env (some t) aud scope rp purpose pk ar iss va).result
        = .error (.nameError
            ("name Error is not defined, raised while handling " ++ e2.msg))) := by
  rw [validate_jwt_eq_primary aud scope rp purpose pk ar iss va (by rfl) hs hw]
  simp only [primaryVerify, he]
  constructor
  · intro e2 hp hf
    rw [if_pos ⟨hp, hA⟩]
    simp only [fallbackVerify, hf]
  · intro e2 hp hf
    rw [if_neg (by simp [hp]), if_pos ⟨hp, hA⟩]
    simp only [fallbackVerify, hf]

/-- Witness for the amended C3 at a refresh token whose audience matches
neither expectation. -/
theorem c3_fallback_failure_nameError_witness :
    (validate_jwt env0 (some tok3) none (.list ["openid"]) true none none false
        none true).result
      = .error (.nameError
          ("name Error is not defined, raised while handling "
            ++ (AuthErr.audience "invalid audience").msg)) :=
  (c3_fallback_failure_nameError env0 tok3 none (.list ["openid"]) true none
    none false none true (.audience "invalid audience") rfl rfl rfl rfl).1
    (.audience "invalid audience") rfl rfl

/-- C4: the blacklist is queried only when purpose enforcement is required
and the verified purpose is `refresh`/`api_key`, on the token identifier;
`access`/`id` tokens are never checked; and for a refresh/api_key token
passing every other check the blacklist alone decides between rejection
(`token is blacklisted`) and success. -/
theorem c4_blacklist_scope_and_decision
    (env : Env) (tok : Option Token) (aud : Option String) (scope : ScopeArg)
    (rp : Bool) (purpose : Option String) (pk : Option String) (ar : Bool)
    (iss : Option (List String)) (va : Bool) :
    (∀ j, (validate_jwt env tok aud scope rp purpose pk ar iss va).trace.blacklistQueried
        = some j →
      rp = true ∧ ∃ t, resolveToken env tok = .ok t
        ∧ (t.claims.pur = some "refresh" ∨ t.claims.pur = some "api_key")
        ∧ t.claims.jti = some j)
  ∧ (∀ t, resolveToken env tok = .ok t →
      (t.claims.pur = some "access" ∨ t.claims.pur = some "id" ∨ rp = false) →
      (validate_jwt env tok aud scope rp purpose pk ar iss va).trace.blacklistQueried
        = none)
  ∧ (∀ t j, tok = some t → scope.isValidType = true → t.wellFormed = true →
      authValidate t (aud.getD env.config.base_url) scope.toOption purpose
          (effectiveIssuers env.config iss)
          (resolvedKey env t pk (effectiveRefresh env.config t ar)) env.now va
        = .ok t.claims →
      rp = true →
      (t.claims.pur = some "refresh" ∨ t.claims.pur = some "api_key") →
      (∀ q, purpose = some q → q ≠ "" → t.claims.pur = some q) →
      t.claims.jti = some j →
      (env.is_blacklisted j = true →
        (validate_jwt env tok aud scope rp purpose pk ar iss va).result
          = .error (.jwtError "token is blacklisted"))
      ∧ (env.is_blacklisted j = false →
        (validate_jwt env tok aud scope rp purpose pk ar iss va).result
          = .ok t.claims)) := by
  have key : ∀ j,
      (validate_jwt env tok aud scope rp purpose pk ar iss va).trace.blacklistQueried
        = some j →
      rp = true ∧ ∃ t, resolveToken env tok = .ok t
        ∧ (t.claims.pur = some "refresh" ∨ t.claims.pur = some "api_key")
        ∧ t.claims.jti = some j := by
    intro j h
    cases hr : resolveToken env tok with
    | error e =>
      unfold validate_jwt at h
      rw [hr] at h
      simp [Trace.init] at h
    | ok t =>
      by_cases hs : scope.isValidType = true
      · by_cases hw : t.wellFormed = true
        · rw [validate_jwt_eq_primary aud scope rp purpose pk ar iss va hr hs hw] at h
          have hb := primaryVerify_blq (by rfl) h
          exact ⟨hb.1, t, rfl, hb.2.1, hb.2.2⟩
        · unfold validate_jwt afterAssert at h
          rw [hr] at h
          simp only [Bool.not_eq_true] at hw
          simp [hs, hw] at h
      · unfold validate_jwt at h
        rw [hr] at h
        simp only [Bool.not_eq_true] at hs
        simp [hs, Trace.init] at h
  refine ⟨key, ?_, ?_⟩
  · intro t ht hcase
    cases ho : (validate_jwt env tok aud scope rp purpose pk ar iss va).trace.blacklistQueried with
    | none => rfl
    | some j =>
      obtain ⟨hrp, t2, ht2, hpur2, _⟩ := key j ho
      rw [ht] at ht2
      injection ht2 with ht2
      subst ht2
      rcases hcase with hc | hc | hc
      · rcases hpur2 with hp | hp <;> rw [hc] at hp <;> exact absurd hp (by simp)
      · rcases hpur2 with hp | hp <;> rw [hc] at hp <;> exact absurd hp (by simp)
      · rw [hc] at hrp
        exact absurd hrp (by simp)
  · intro t j h0 hs hw hok hrp hpur hq hj
    subst h0
    subst hrp
    rw [validate_jwt_eq_primary aud scope true purpose pk ar iss va (by rfl) hs hw]
    simp only [primaryVerify, hok]
    simp only [postChecks, purposeGate_ok_of hq]
    exact purposeAndBlacklist_decides hpur hj

/-- Witness for C4 at a modern refresh token whose identifier is in the
blacklist. -/
theorem c4_blacklist_scope_and_decision_witness :
    (envB.is_blacklisted "jtiR" = true →
      (validate_jwt envB (some tokRM) none (.set ["openid"]) true none none
        false none true).result = .error (.jwtError "token is blacklisted"))
  ∧ (envB.is_blacklisted "jtiR" = false →
      (validate_jwt envB (some tokRM) none (.set ["openid"]) true none none
        false none true).result = .ok tokRM.claims) :=
  (c4_blacklist_scope_and_decision envB (some tokRM) none (.set ["openid"])
    true none none false none true).2.2 tokRM "jtiR" rfl rfl rfl rfl rfl
    (Or.inl rfl) (by intro q hq; cases hq) rfl

/-- C5: evaluation at the failing input.  With purpose enforcement required
and no `pur` claim, a token that also lacks `jti` makes line 181
(`claims["jti"]`) raise an untyped `KeyError` instead of the typed
missing-purpose `JWTError`; with a `jti` present the typed error carrying
the `jti` is raised and is distinct from the `JWTPurposeError` used for a
purpose mismatch. -/
theorem c5_missing_jti_keyError :
    (validate_jwt env0 (some tokN) none (.set ["openid"]) true none none false
        none true).result = .error (.keyError "jti")
    ∧ (validate_jwt env0 (some tokN2) none (.set ["openid"]) true none none
        false none true).result
      = .error (.jwtError "token jn missing purpose (`pur`) claim")
    ∧ validate_purpose claims0 "refresh"
      = .error (.jwtPurposeError
          "claims have incorrect purpose: expected refresh, got access") := by
  exact ⟨rfl, rfl, rfl⟩

/-- C6: when the caller supplies no expected audience, the call is identical
to one with the expected audience set to the canonical base identity
`config["BASE_URL"]`; for a token not eligible for the legacy fallback, a
returned claims value then really contains the base identity in its `aud`
claim (audience was checked, not skipped). -/
theorem c6_default_audience
    (env : Env) (tok : Option Token) (scope : ScopeArg) (rp : Bool)
    (purpose : Option String) (pk : Option String) (ar : Bool)
    (iss : Option (List String)) (va : Bool) :
    validate_jwt env tok none scope rp purpose pk ar iss va
      = validate_jwt env tok (some env.config.base_url) scope rp purpose pk ar
          iss va
  ∧ (∀ t c, resolveToken env tok = .ok t →
      ¬(t.claims.pur = some "refresh" ∨ t.claims.pur = some "api_key") →
      (validate_jwt env tok none scope rp purpose pk ar iss true).result = .ok c →
      env.config.base_url ∈ c.aud) := by
  constructor
  · rfl
  · intro t c ht hnf h
    cases hr : resolveToken env tok with
    | error e =>
      rw [hr] at ht
      cases ht
    | ok t2 =>
      rw [hr] at ht
      injection ht with ht
      subst ht
      by_cases hs : scope.isValidType = true
      · by_cases hw : t2.wellFormed = true
        · rw [validate_jwt_eq_primary none scope rp purpose pk ar iss true hr hs hw] at h
          cases hm : authValidate t2 ((none : Option String).getD env.config.base_url)
              scope.toOption purpose (effectiveIssuers env.config iss)
              (resolvedKey env t2 pk (effectiveRefresh env.config t2 ar)) env.now true with
          | ok claims =>
            simp only [primaryVerify, hm] at h
            obtain ⟨hc, _, _, _, hau, _, _⟩ := authValidate_ok hm
            subst hc
            have hc2 := (postChecks_ok h).1
            subst hc2
            have := hau rfl
            simpa [audOk, Option.getD] using this
          | error e =>
            simp only [primaryVerify, hm] at h
            split at h
            · rename_i hcond
              exact absurd (Or.inl hcond.1) hnf
            · split at h
              · rename_i hcond
                exact absurd (Or.inr hcond.1) hnf
              · simp at h
        · unfold validate_jwt afterAssert at h
          rw [hr] at h
          simp only [Bool.not_eq_true] at hw
          simp [hs, hw] at h
      · unfold validate_jwt at h
        rw [hr] at h
        simp only [Bool.not_eq_true] at hs
        simp [hs] at h

/-- C7: a token whose unverified `iss` equals the base identity never causes
a forced refresh during key resolution (line 110 damps `attempt_refresh`),
and a forced refresh can only have happened for a token whose issuer
differs. -/
theorem c7_local_token_no_forced_refresh
    (env : Env) (tok : Option Token) (aud : Option String) (scope : ScopeArg)
    (rp : Bool) (purpose : Option String) (pk : Option String) (ar : Bool)
    (iss : Option (List String)) (va : Bool) :
    (∀ t, resolveToken env tok = .ok t →
      t.claims.iss = some env.config.base_url →
      (validate_jwt env tok aud scope rp purpose pk ar iss va).trace.keyResolution
        ≠ some true)
  ∧ (∀ t, resolveToken env tok = .ok t →
      (validate_jwt env tok aud scope rp purpose pk ar iss va).trace.keyResolution
        = some true →
      t.claims.iss ≠ some env.config.base_url) := by
  have key : ∀ t, resolveToken env tok = .ok t →
      (validate_jwt env tok aud scope rp purpose pk ar iss va).trace.keyResolution
        = some true →
      t.claims.iss ≠ some env.config.base_url := by
    intro t ht hk hloc
    rcases validate_jwt_keyRes env tok aud scope rp purpose pk ar iss va with
      hn | ⟨t2, ht2, he⟩
    · rw [hn] at hk
      cases hk
    · rw [ht] at ht2
      injection ht2 with ht2
      subst ht2
      rw [he] at hk
      injection hk with hk
      unfold effectiveRefresh at hk
      rw [Bool.and_eq_true] at hk
      have := of_decide_eq_true hk.2
      exact this hloc
  exact ⟨fun t ht hloc hk => key t ht hk hloc, key⟩

/-- C8: the trusted issuer set is exactly the caller-supplied list when one
is given, and otherwise exactly `config["BASE_URL"]` plus the configured
secondary OIDC issuer (when truthy), and nothing else. -/
theorem c8_trusted_issuers
    (env : Env) (tok : Option Token) (t : Token) (aud : Option String)
    (scope : ScopeArg) (rp : Bool) (purpose : Option String) (pk : Option String)
    (ar : Bool) (iss : Option (List String)) (va : Bool)
    (ht : resolveToken env tok = .ok t) (hs : scope.isValidType = true) :
    (validate_jwt env tok aud scope rp purpose pk ar iss va).trace.issuersUsed
      = some (match iss with
          | some l => l
          | none =>
            env.config.base_url ::
              (match env.config.oidc_fence_api_base_url with
               | some o => if o ≠ "" then [o] else []
               | none => [])) := by
  by_cases hw : t.wellFormed = true
  · rw [validate_jwt_eq_primary aud scope rp purpose pk ar iss va ht hs hw,
      primaryVerify_issuers]
    rfl
  · unfold validate_jwt afterAssert
    rw [ht]
    simp only [Bool.not_eq_true] at hw
    simp [hs, hw, effectiveIssuers]

/-- Witness for C8: with no caller-supplied list the issuer set is the base
url plus the configured secondary issuer. -/
theorem c8_trusted_issuers_witness :
    (validate_jwt env0 (some tok0) none (.set ["openid"]) true none none false
        none true).trace.issuersUsed
      = some ["https://fence.test", "https://other.fence"] := by
  have h := c8_trusted_issuers env0 (some tok0) tok0 none (.set ["openid"])
    true none none false none true rfl rfl
  simpa using h

/-- C9: a scope argument that is neither a set nor a list nor `None` fails
the assertion before any verification is performed (nothing is traced), and
any call that reached the inner verification had a set, list or `None` scope
argument. -/
theorem c9_scope_assertion
    (env : Env) (tok : Option Token) (aud : Option String) (rp : Bool)
    (purpose : Option String) (pk : Option String) (ar : Bool)
    (iss : Option (List String)) (va : Bool) (d : String) :
    (∀ t, resolveToken env tok = .ok t →
      validate_jwt env tok aud (.other d) rp purpose pk ar iss va
        = ⟨.error (.assertionFailed "scope argument must be set or list or None"),
            Trace.init⟩)
  ∧ (∀ scope : ScopeArg,
      (validate_jwt env tok aud scope rp purpose pk ar iss va).trace.primaryCalled
        = true →
      scope.isValidType = true) := by
  constructor
  · intro t ht
    unfold validate_jwt
    rw [ht]
    simp [ScopeArg.isValidType]
  · intro scope hp
    by_cases hv : scope.isValidType = true
    · exact hv
    · exfalso
      simp only [Bool.not_eq_true] at hv
      unfold validate_jwt at hp
      cases hr : resolveToken env tok with
      | error e =>
        rw [hr] at hp
        simp [Trace.init] at hp
      | ok t =>
        rw [hr] at hp
        simp [hv, Trace.init] at hp

/-- C10 counterexample: a legacy refresh token whose scope claim does not
contain `openid` is accepted with the scope argument left at its default,
because the audience fallback skips scope checking. -/
theorem c10_default_scope_cex :
    (validate_jwt env0 (some tokR) none (.set ["openid"]) true none none false
        none true).result = .ok claimsR
    ∧ "openid" ∉ claimsR.scope.getD [] := by
  exact ⟨rfl, by simp [claimsR]⟩

/-- C10 amended: when the caller leaves the scope argument at its default
`{"openid"}`, scope checking is not skipped in the primary verification, and
a decodable token whose scope claim lacks `openid` is rejected - unless the
legacy audience fallback applies (unverified purpose `refresh`/`api_key` and
the primary failure is an audience mismatch), in which case scope checking
is skipped and the token can be accepted. -/
theorem c10_default_scope_rejects
    (env : Env) (t : Token) (aud : Option String) (rp : Bool)
    (purpose : Option String) (pk : Option String) (ar : Bool)
    (iss : Option (List String)) (va : Bool)
    (hw : t.wellFormed = true)
    (hsc : "openid" ∉ t.claims.scope.getD [])
    (hnf : ¬(t.claims.pur = some "refresh" ∨ t.claims.pur = some "api_key")
        ∨ audOk t.claims (aud.getD env.config.base_url) = true) :
    ∃ m, (validate_jwt env (some t) aud (.set ["openid"]) rp purpose pk ar iss
        va).result = .error (.jwtError m) := by
  rw [validate_jwt_eq_primary aud (.set ["openid"]) rp purpose pk ar iss va
    (by rfl) rfl hw]
  cases hm : authValidate t (aud.getD env.config.base_url)
      (ScopeArg.set ["openid"]).toOption purpose (effectiveIssuers env.config iss)
      (resolvedKey env t pk (effectiveRefresh env.config t ar)) env.now va with
  | ok claims =>
    exfalso
    obtain ⟨_, _, _, _, _, hsok, _⟩ := authValidate_ok hm
    simp only [ScopeArg.toOption, scopeOk, decide_eq_true_eq] at hsok
    exact hsc (hsok "openid" (by simp))
  | error e =>
    have hne : ¬((t.claims.pur = some "refresh" ∨ t.claims.pur = some "api_key")
        ∧ e.isAudience = true) := by
      rcases hnf with hn | ha
      · exact fun hc => hn hc.1
      · intro hc
        have := (authValidate_audience_error hm hc.2).1
        rw [ha] at this
        cases this
    simp only [primaryVerify, hm]
    rw [if_neg (fun hc => hne ⟨Or.inl hc.1, hc.2⟩),
      if_neg (fun hc => hne ⟨Or.inr hc.1, hc.2⟩)]
    exact ⟨elseMsg e t.claims, rfl⟩

/-- Witness for the amended C10 at an access token whose scope claim is
`{"data"}`. -/
theorem c10_default_scope_rejects_witness :
    ∃ m, (validate_jwt env0 (some tokX) none (.set ["openid"]) true none none
        false none true).result = .error (.jwtError m) :=
  c10_default_scope_rejects env0 tokX none true none none false none true rfl
    (by simp [tokX, claimsX]) (Or.inl (by simp [tokX, claimsX]))

end Fence
